import Mathlib

/-!
# Verification of `lib/promscrape/discovery/kubernetes/api.go`

A shallow embedding of the kubernetes service-discovery API client:
the configuration-fingerprint cache (`getAPIConfig`), the credential
resolver and HTTP-client builder (`newAPIConfig` / `newHostClient`) and
the authenticated fetch path (`getAPIResponse`), together with theorems
settling the specification claims.

Go side effects are made explicit: the process environment (env vars,
readable files, IPv6 capability) is a record `Env` passed to each
function; the package-level cache is explicit state threaded through
`getAPIConfig`; fallible code returns `Except`.  Error values are
embedded structurally: each `fmt.Errorf` construction site becomes a
constructor of `DiscoveryError` carrying exactly the format arguments of
the source message.
-/

set_option autoImplicit false

namespace Kubernetes

deriving instance DecidableEq for Except

/-- Byte strings (Go `[]byte`). -/
abbrev Bytes := List UInt8

/-- Execution environment of the process: `os.Getenv` (returns `""` for an
unset variable, as in Go), the readable file system (`none` = the file
cannot be read), and `netutil.TCP6Enabled()`. -/
structure Env where
  getenv : String → String
  readFile : String → Option String
  tcp6Enabled : Bool

/-- `promauth.TLSConfig` (the fields used by this package). -/
structure TLSConfig where
  CAFile : String := ""
  CertFile : String := ""
  KeyFile : String := ""
  ServerName : String := ""
  InsecureSkipVerify : Bool := false
deriving DecidableEq, Repr

/-- `promauth.BasicAuthConfig`. -/
structure BasicAuthConfig where
  Username : String := ""
  Password : String := ""
deriving DecidableEq, Repr

/-- A per-role selector of the kubernetes SD config (`Selector` of this
package: the fields used by the query composer). -/
structure Selector where
  Role : String := ""
  Label : String := ""
  Field : String := ""
deriving DecidableEq, Repr

/-- `Namespaces` block of the kubernetes SD config. -/
structure Namespaces where
  Names : List String := []
deriving DecidableEq, Repr

/-- `SDConfig`: the declarative kubernetes service-discovery
configuration (the fields read by `api.go`).  A value type: two configs
are the same identity iff all fields are equal. -/
structure SDConfig where
  APIServer : String := ""
  BasicAuth : Option BasicAuthConfig := none
  BearerToken : String := ""
  BearerTokenFile : String := ""
  TLSConfig : Option TLSConfig := none
  Namespaces : Namespaces := {}
  Selectors : List Selector := []
deriving DecidableEq, Repr

/-- Structured embedding of the error values produced by `api.go` and its
auth helper: one constructor per `fmt.Errorf` site, carrying the format
arguments of the source message. -/
inductive DiscoveryError where
  /-- `cannot find <name> env var; it must be defined when running in k8s ...` -/
  | envVarMissing (name : String)
  /-- `cannot read <path>` inside auth-config construction (missing
  bearer-token or CA file). -/
  | authFileUnreadable (path : String)
  /-- `cannot initialize service account auth: <err>; probably ...` -/
  | serviceAccountInit (err : DiscoveryError)
  /-- `cannot parse auth config: <err>` -/
  | cannotParseAuthConfig (err : DiscoveryError)
  /-- `cannot create HTTP client for <apiServer>: <err>` -/
  | cannotCreateHTTPClient (apiServer : String) (err : DiscoveryError)
  /-- `cannot fetch <requestURL>: <err>` -/
  | cannotFetch (requestURL : String) (err : String)
  /-- `cannot ungzip response from <requestURL>: <err>` -/
  | cannotUngzip (requestURL : String) (err : String)
  /-- `unexpected status code returned from <requestURL>: <statusCode>;
  expecting <expecting>; response body: <body>` -/
  | unexpectedStatusCode (requestURL : String) (statusCode : Nat) (expecting : Nat) (body : Bytes)
deriving DecidableEq, Repr

/-- Resolved authentication material (`promauth.Config`: the fields this
package reads — the `Authorization` header value and the TLS trust
material consumed by `NewTLSConfig`). -/
structure Config where
  Authorization : String := ""
  TLSRootCAData : Option String := none
  TLSServerName : String := ""
  TLSInsecureSkipVerify : Bool := false
deriving DecidableEq, Repr

/-- `crypto/tls.Config` as produced by `promauth.Config.NewTLSConfig`. -/
structure TLSCfg where
  rootCAData : Option String
  serverName : String
  insecureSkipVerify : Bool
deriving DecidableEq, Repr

/-- `promauth.Config.NewTLSConfig`: the TLS client configuration derived
from the resolved auth material. -/
def Config.NewTLSConfig (ac : Config) : TLSCfg :=
  { rootCAData := ac.TLSRootCAData
    serverName := ac.TLSServerName
    insecureSkipVerify := ac.TLSInsecureSkipVerify }

/-- Modelled from the spec: `promauth.NewConfig` (lib/promauth is not
under src/).  Per the spec's CredentialResolver contract it builds the
authorization header from explicit basic/bearer settings — a bearer
token may come inline or from a token file — and loads the CA file named
by the TLS settings, failing when a named file cannot be read.  The
`baseDir` argument is accepted as in the source signature; the paths
relevant to the claims are absolute. -/
def NewConfig (env : Env) (_baseDir : String) (basicAuth : Option BasicAuthConfig)
    (bearerToken : String) (bearerTokenFile : String) (tlsConfig : Option TLSConfig) :
    Except DiscoveryError Config :=
  let authE : Except DiscoveryError String :=
    match basicAuth with
    | some ba => .ok ("Basic " ++ ba.Username ++ ":" ++ ba.Password)
    | none =>
      if bearerTokenFile ≠ "" then
        match env.readFile bearerTokenFile with
        | none => .error (.authFileUnreadable bearerTokenFile)
        | some token => .ok ("Bearer " ++ token)
      else if bearerToken ≠ "" then .ok ("Bearer " ++ bearerToken)
      else .ok ""
  match authE with
  | .error e => .error e
  | .ok auth =>
    match tlsConfig with
    | none => .ok { Authorization := auth }
    | some tc =>
      if tc.CAFile ≠ "" then
        match env.readFile tc.CAFile with
        | none => .error (.authFileUnreadable tc.CAFile)
        | some caData =>
          .ok { Authorization := auth, TLSRootCAData := some caData,
                TLSServerName := tc.ServerName, TLSInsecureSkipVerify := tc.InsecureSkipVerify }
      else
        .ok { Authorization := auth, TLSServerName := tc.ServerName,
              TLSInsecureSkipVerify := tc.InsecureSkipVerify }

/-- Split a character list at the first occurrence of `sep`: the part
before and the part after, or `none` when `sep` does not occur. -/
def breakOnFirst (sep : List Char) : List Char → Option (List Char × List Char)
  | [] => none
  | c :: cs =>
    if sep.isPrefixOf (c :: cs) then some ([], (c :: cs).drop sep.length)
    else match breakOnFirst sep cs with
      | none => none
      | some (pre, post) => some (c :: pre, post)

/-- Join strings with a separator (`strings.Join`). -/
def joinParts (sep : String) : List String → String
  | [] => ""
  | [p] => p
  | p :: q :: ps => p ++ sep ++ joinParts sep (q :: ps)

/-- `net.JoinHostPort`: brackets the host when it holds a `:` or `%`. -/
def joinHostPort (host port : String) : String :=
  if host.data.contains ':' ∨ host.data.contains '%' then "[" ++ host ++ "]:" ++ port
  else host ++ ":" ++ port

/-- The scheme/host part of `fasthttp.URI` after `u.Update(s)`: scheme
defaults to `http` when `s` has no `://`, the host runs to the first `/`
of the remainder; scheme and host are lowercased. -/
structure URI where
  scheme : String
  host : String
deriving DecidableEq, Repr

/-- Parse of `fasthttp.URI.Update` restricted to scheme and host: the
scheme is the part before `://` (defaulting to `http` when `://` is
absent), the host runs from there to the first `/`; both are
lowercased. -/
def parseURI (s : String) : URI :=
  let (scheme, rest) :=
    match breakOnFirst "://".data s.data with
    | none => ("http".data, s.data)
    | some (pre, post) => (pre, post)
  { scheme := String.mk (scheme.map Char.toLower)
    host := String.mk ((rest.takeWhile (fun c => c ≠ '/')).map Char.toLower) }

/-- One nanosecond, the unit of Go `time.Duration`. -/
def time_Nanosecond : Nat := 1

/-- Go `time.Second` in nanoseconds. -/
def time_Second : Nat := 1000000000

/-- Go `time.Minute` in nanoseconds. -/
def time_Minute : Nat := 60 * time_Second

/-- `fasthttp.HostClient`: the fields set by `newHostClient`
(timeouts in nanoseconds). -/
structure HostClient where
  Addr : String
  Name : String
  DialDualStack : Bool
  IsTLS : Bool
  TLSConfig : Option TLSCfg
  ReadTimeout : Nat
  WriteTimeout : Nat
  MaxResponseBodySize : Nat
deriving DecidableEq, Repr

/-- `hcValue`: the bundle returned by `newHostClient`. -/
structure hcValue where
  hc : HostClient
  ac : Option Config
  apiServer : String
  hostPort : String
deriving DecidableEq, Repr

/-- The well-known in-cluster CA certificate path used by `newHostClient`. -/
def serviceAccountCAPath : String := "/var/run/secrets/kubernetes.io/serviceaccount/ca.crt"

/-- The well-known in-cluster bearer-token path used by `newHostClient`. -/
def serviceAccountTokenPath : String := "/var/run/secrets/kubernetes.io/serviceaccount/token"

/-- The first phase of `newHostClient` (`api.go` lines 103–126): when no
explicit server is configured, assume the process runs at a k8s pod and
discover the API server and auth config — read the
`KUBERNETES_SERVICE_HOST` / `KUBERNETES_SERVICE_PORT` env vars (failing
with an error naming the missing one), build
`https://` + `net.JoinHostPort(host, port)`, and load the service-account
auth material from the two well-known paths, discarding the passed-in
auth config. -/
def resolveAPIServer (env : Env) (apiServer : String) (ac : Option Config) :
    Except DiscoveryError (String × Option Config) :=
  if apiServer.length = 0 then
    let host := env.getenv "KUBERNETES_SERVICE_HOST"
    let port := env.getenv "KUBERNETES_SERVICE_PORT"
    if host.length = 0 then .error (.envVarMissing "KUBERNETES_SERVICE_HOST")
    else if port.length = 0 then .error (.envVarMissing "KUBERNETES_SERVICE_PORT")
    else
      let apiServer := "https://" ++ joinHostPort host port
      let tlsConfig : TLSConfig := { CAFile := serviceAccountCAPath }
      match NewConfig env "/" none "" serviceAccountTokenPath (some tlsConfig) with
      | .error e => .error (.serviceAccountInit e)
      | .ok acNew => .ok (apiServer, some acNew)
  else .ok (apiServer, ac)

/-- The second phase of `newHostClient` (`api.go` lines 128–158): derive
scheme and host from the resolved server URL, infer the default port
(443 under https, 80 otherwise) when the host carries none, and build
the pooled `fasthttp.HostClient` with its fixed limits. -/
def buildHostClient (env : Env) (apiServer : String) (ac : Option Config) : hcValue :=
  let u := parseURI apiServer
  let hostPort := u.host
  let isTLS := u.scheme = "https"
  let tlsCfg : Option TLSCfg := if isTLS then ac.map Config.NewTLSConfig else none
  let hostPort :=
    if ¬ hostPort.data.contains ':' then
      joinHostPort hostPort (if isTLS then "443" else "80")
    else hostPort
  let hc : HostClient :=
    { Addr := hostPort
      Name := "vm_promscrape/discovery"
      DialDualStack := env.tcp6Enabled
      IsTLS := isTLS
      TLSConfig := tlsCfg
      ReadTimeout := time_Minute
      WriteTimeout := 10 * time_Second
      MaxResponseBodySize := 300 * 1024 * 1024 }
  { hc := hc, ac := ac, apiServer := apiServer, hostPort := hostPort }

/-- `newHostClient` of `api.go`: resolve the API server address (in-pod
bootstrap when none is configured explicitly), then build the client. -/
def newHostClient (env : Env) (apiServer : String) (ac : Option Config) :
    Except DiscoveryError hcValue :=
  match resolveAPIServer env apiServer ac with
  | .error e => .error e
  | .ok (apiServer, ac) => .ok (buildHostClient env apiServer ac)

/-- `apiConfig`: the resolved per-identity context. -/
structure apiConfig where
  client : HostClient
  server : String
  hostPort : String
  authConfig : Option Config
  namespaces : List String
  selectors : List Selector
deriving DecidableEq, Repr

/-- `newAPIConfig` of `api.go`: parse the explicit auth settings, build
the host client, and assemble the resolved context. -/
def newAPIConfig (env : Env) (sdc : SDConfig) (baseDir : String) :
    Except DiscoveryError apiConfig :=
  match NewConfig env baseDir sdc.BasicAuth sdc.BearerToken sdc.BearerTokenFile sdc.TLSConfig with
  | .error e => .error (.cannotParseAuthConfig e)
  | .ok ac =>
    match newHostClient env sdc.APIServer (some ac) with
    | .error e => .error (.cannotCreateHTTPClient sdc.APIServer e)
    | .ok hcv =>
      .ok { client := hcv.hc
            server := hcv.apiServer
            hostPort := hcv.hostPort
            authConfig := hcv.ac
            namespaces := sdc.Namespaces.Names
            selectors := sdc.Selectors }

/-! ## The fetch path -/

/-- The two gzip magic bytes, heading every gzip stream. -/
def gzipMagic : Bytes := [0x1f, 0x8b]

/-- Interface-level model of gzip compression (the codec lives in the
external `VictoriaMetrics/fasthttp` library, outside this repository):
an injective encoding headed by the gzip magic bytes. -/
def gzipBytes (data : Bytes) : Bytes := gzipMagic ++ data

/-- Interface-level model of `fasthttp.AppendGunzipBytes` (with `nil`
destination): the partial inverse of `gzipBytes`, failing on input that
is not a gzip stream. -/
def gunzipBytes (b : Bytes) : Except String Bytes :=
  if b.take 2 = gzipMagic then .ok (b.drop 2)
  else .error "gzip: invalid header"

/-- An HTTP response as read by `getAPIResponse`: the status code, the
value of the `Content-Encoding` header (`Header.Peek` yields `""` when
the header is absent) and the body bytes. -/
structure Response where
  statusCode : Nat
  contentEncoding : String
  body : Bytes
deriving DecidableEq, Repr

/-- `fasthttp.StatusOK`. -/
def fasthttp_StatusOK : Nat := 200

/-- Modelled from the spec: `joinSelectors` lives in another file of this
package, not under src/.  Per the spec's AuthenticatedFetcher contract it
composes a query string from the namespace restriction list and the
selectors whose role matches the requested role. -/
def joinSelectors (role : String) (namespaces : List String) (selectors : List Selector) : String :=
  let roleSelectors := selectors.filter (fun s => s.Role = role)
  let parts :=
    namespaces.map (fun ns => "namespace=" ++ ns) ++
    roleSelectors.filterMap (fun s =>
      if s.Label ≠ "" then some ("labelSelector=" ++ s.Label) else none) ++
    roleSelectors.filterMap (fun s =>
      if s.Field ≠ "" then some ("fieldSelector=" ++ s.Field) else none)
  joinParts "&" parts

/-- The full request URL composed by `getAPIResponse` before fetching. -/
def requestURLOf (cfg : apiConfig) (role path : String) : String :=
  let query := joinSelectors role cfg.namespaces cfg.selectors
  let path := if query.length > 0 then path ++ "?" ++ query else path
  cfg.server ++ path

/-- The body-decoding step of `getAPIResponse`: gunzip when the response
declares gzip content-encoding, the raw body otherwise. -/
def decodeBody (resp : Response) : Except String Bytes :=
  if resp.contentEncoding = "gzip" then gunzipBytes resp.body
  else .ok resp.body

/-- `getAPIResponse` of `api.go`.  The network exchange `cfg.client.Do`
is made explicit: `doResult` is the outcome the client delivers for the
composed request (`Except.error` = transport failure).  The function
composes the request URL, decodes the body (gunzip under
`Content-Encoding: gzip`), then checks the status code against 200. -/
def getAPIResponse (cfg : apiConfig) (role path : String)
    (doResult : Except String Response) : Except DiscoveryError Bytes :=
  let requestURL := requestURLOf cfg role path
  match doResult with
  | .error e => .error (.cannotFetch requestURL e)
  | .ok resp =>
    match decodeBody resp with
    | .error e => .error (.cannotUngzip requestURL e)
    | .ok data =>
      if resp.statusCode ≠ fasthttp_StatusOK then
        .error (.unexpectedStatusCode requestURL resp.statusCode fasthttp_StatusOK data)
      else .ok data

/-! ## The configuration-fingerprint cache

`discoveryutils.ConfigMap` lives in lib/promscrape/discoveryutils, not
under src/; it is modelled from the spec below. -/

/-- Modelled from the spec: `discoveryutils.ConfigMap` (not under src/).
Per the spec's ConfigFingerprintCache contract it maps a configuration's
logical identity — value equality of all `SDConfig` fields — to the
lazily constructed context, stores successes permanently and never
stores a construction failure. -/
structure ConfigMap where
  entries : List (SDConfig × apiConfig)
deriving DecidableEq, Repr

/-- The empty cache (`discoveryutils.NewConfigMap`). -/
def ConfigMap.new : ConfigMap := { entries := [] }

/-- Cache lookup by configuration identity (value equality of fields). -/
def ConfigMap.lookup (m : ConfigMap) (k : SDConfig) : Option apiConfig :=
  (m.entries.find? (fun e => decide (e.1 = k))).map (fun e => e.2)

/-- Modelled from the spec: `ConfigMap.Get`.  Returns the stored context
for the identity when present; otherwise runs the builder once, stores
the result only on success, and returns the builder's outcome unchanged
on failure (failures are never cached).  The third component reports
whether the builder ran during this call. -/
def ConfigMap.Get (m : ConfigMap) (k : SDConfig)
    (newConfig : Unit → Except DiscoveryError apiConfig) :
    ConfigMap × Except DiscoveryError apiConfig × Bool :=
  match m.lookup k with
  | some v => (m, .ok v, false)
  | none =>
    match newConfig () with
    | .error e => (m, .error e, true)
    | .ok cfg => ({ entries := m.entries ++ [(k, cfg)] }, .ok cfg, true)

/-- `getAPIConfig` of `api.go`: resolve a configuration through the
package cache, constructing via `newAPIConfig` on a miss. -/
def getAPIConfig (env : Env) (m : ConfigMap) (sdc : SDConfig) (baseDir : String) :
    ConfigMap × Except DiscoveryError apiConfig × Bool :=
  m.Get sdc (fun _ => newAPIConfig env sdc baseDir)

/-- Run a sequence of `getAPIConfig` calls, threading the cache state and
counting how many times the construction pipeline ran. -/
def runGetAPIConfig (env : Env) (baseDir : String) :
    ConfigMap → List SDConfig → ConfigMap × List (Except DiscoveryError apiConfig) × Nat
  | m, [] => (m, [], 0)
  | m, sdc :: rest =>
    let r := getAPIConfig env m sdc baseDir
    let rec_result := runGetAPIConfig env baseDir r.1 rest
    (rec_result.1, r.2.1 :: rec_result.2.1, (if r.2.2 then 1 else 0) + rec_result.2.2)

/-! ## Helper lemmas -/

/-- A string has length zero iff it is empty (the form of emptiness
tested by the Go code, `len(s) == 0`). -/
lemma length_eq_zero_iff (s : String) : s.length = 0 ↔ s = "" := by
  constructor
  · intro h
    cases s with
    | mk data =>
      have : data = [] := List.length_eq_zero.mp (by simpa [String.length] using h)
      simp [this]
  · intro h; simp [h]

/-! ## Theorems about the fetch path -/

/-- C5: a response declaring `Content-Encoding: gzip` whose body is a
gzip compression of a payload yields exactly that payload back
(round-trip through the codec), and a response without that header
yields the raw body bytes unchanged. -/
theorem C5_gzip_roundtrip (cfg : apiConfig) (role path : String) (resp : Response)
    (hstatus : resp.statusCode = fasthttp_StatusOK) :
    (∀ payload : Bytes, resp.contentEncoding = "gzip" → resp.body = gzipBytes payload →
      getAPIResponse cfg role path (.ok resp) = .ok payload) ∧
    (resp.contentEncoding ≠ "gzip" →
      getAPIResponse cfg role path (.ok resp) = .ok resp.body) := by
  constructor
  · intro payload hce hbody
    simp [getAPIResponse, decodeBody, hce, hbody, gunzipBytes, gzipBytes, gzipMagic, hstatus,
      fasthttp_StatusOK]
  · intro hce
    simp [getAPIResponse, decodeBody, hce, hstatus, fasthttp_StatusOK]

/-- C5 witness: with a 200 gzip response carrying the compression of
`[0x41, 0x42]` the fetch returns `[0x41, 0x42]`, and with a plain 200
response the raw body comes back unchanged. -/
theorem C5_gzip_roundtrip_witness :
    getAPIResponse
      { client := { Addr := "a:80", Name := "n", DialDualStack := false, IsTLS := false,
                    TLSConfig := none, ReadTimeout := 1, WriteTimeout := 1,
                    MaxResponseBodySize := 1 },
        server := "http://a", hostPort := "a:80", authConfig := none,
        namespaces := [], selectors := [] }
      "pod" "/api/v1/pods"
      (.ok { statusCode := 200, contentEncoding := "gzip", body := gzipBytes [0x41, 0x42] }) =
      .ok [0x41, 0x42] ∧
    getAPIResponse
      { client := { Addr := "a:80", Name := "n", DialDualStack := false, IsTLS := false,
                    TLSConfig := none, ReadTimeout := 1, WriteTimeout := 1,
                    MaxResponseBodySize := 1 },
        server := "http://a", hostPort := "a:80", authConfig := none,
        namespaces := [], selectors := [] }
      "pod" "/api/v1/pods"
      (.ok { statusCode := 200, contentEncoding := "", body := [0x43] }) = .ok [0x43] := by
  constructor
  · exact (C5_gzip_roundtrip _ "pod" "/api/v1/pods" _ rfl).1 [0x41, 0x42] rfl rfl
  · exact (C5_gzip_roundtrip _ "pod" "/api/v1/pods" _ rfl).2 (by decide)

/-- A plain resolved context used to instantiate fetch-path statements
on concrete inputs. -/
def cfgPlain : apiConfig where
  client := { Addr := "api.example.com:443", Name := "vm_promscrape/discovery",
              DialDualStack := false, IsTLS := true, TLSConfig := none,
              ReadTimeout := time_Minute, WriteTimeout := 10 * time_Second,
              MaxResponseBodySize := 300 * 1024 * 1024 }
  server := "https://api.example.com"
  hostPort := "api.example.com:443"
  authConfig := none
  namespaces := []
  selectors := []

/-- C9: body decoding precedes the status check.  For a response
declaring gzip encoding whose body does not gunzip, the fetch fails with
the decompression error whatever the status code is (the status error is
never reached); for a decodable gzip response with a non-200 status, the
status error's body is the decompressed payload, not the raw compressed
bytes. -/
theorem C9_decode_before_status (cfg : apiConfig) (role path : String) (resp : Response)
    (hce : resp.contentEncoding = "gzip") :
    (∀ err : String, gunzipBytes resp.body = .error err →
      getAPIResponse cfg role path (.ok resp) =
        .error (.cannotUngzip (requestURLOf cfg role path) err)) ∧
    (∀ payload : Bytes, gunzipBytes resp.body = .ok payload →
      resp.statusCode ≠ fasthttp_StatusOK →
      getAPIResponse cfg role path (.ok resp) =
        .error (.unexpectedStatusCode (requestURLOf cfg role path)
          resp.statusCode fasthttp_StatusOK payload)) := by
  constructor
  · intro err herr
    simp [getAPIResponse, decodeBody, hce, herr]
  · intro payload hok hstatus
    simp [getAPIResponse, decodeBody, hce, hok, hstatus]

/-- C9 witness: a gzip-declared response with an invalid body and status
500 fails with the ungzip error (not the status error), and a
gzip-declared response with a valid body and status 503 fails with the
status error carrying the decompressed payload `[0x41]`. -/
theorem C9_decode_before_status_witness :
    getAPIResponse cfgPlain "pod" "/api/v1/pods"
      (.ok { statusCode := 500, contentEncoding := "gzip", body := [0x00, 0x00] }) =
      .error (.cannotUngzip "https://api.example.com/api/v1/pods" "gzip: invalid header") ∧
    getAPIResponse cfgPlain "pod" "/api/v1/pods"
      (.ok { statusCode := 503, contentEncoding := "gzip", body := gzipBytes [0x41] }) =
      .error (.unexpectedStatusCode "https://api.example.com/api/v1/pods" 503 200 [0x41]) := by
  constructor
  · have h := (C9_decode_before_status cfgPlain "pod" "/api/v1/pods"
      { statusCode := 500, contentEncoding := "gzip", body := [0x00, 0x00] } rfl).1
      "gzip: invalid header" (by decide)
    rw [h]; decide
  · have h := (C9_decode_before_status cfgPlain "pod" "/api/v1/pods"
      { statusCode := 503, contentEncoding := "gzip", body := gzipBytes [0x41] } rfl).2
      [0x41] (by decide) (by decide)
    rw [h]; decide

/-- C4 counterexample: a delivered response with status 200 but a
gzip-declared body that does not decompress makes `getAPIResponse` fail,
so success is not equivalent to the status being 200 as the claim
states. -/
theorem C4_counterexample_status_iff :
    (getAPIResponse cfgPlain "pod" "/api/v1/pods"
        (.ok { statusCode := 200, contentEncoding := "gzip", body := [0x00, 0x00] }) =
      .error (.cannotUngzip "https://api.example.com/api/v1/pods" "gzip: invalid header")) ∧
    (200 : Nat) = fasthttp_StatusOK := by
  decide

/-- C4 (amended): for a delivered response whose body decodes (raw, or
valid gzip under a gzip Content-Encoding header), the fetch succeeds iff
the status code is exactly 200, any success returns exactly the decoded
body (never partial data), and a non-200 status yields the error
carrying that status code, the full request URL and the decoded body. -/
theorem C4_status_check (cfg : apiConfig) (role path : String) (resp : Response)
    (data : Bytes) (hdec : decodeBody resp = .ok data) :
    (getAPIResponse cfg role path (.ok resp) = .ok data ↔
      resp.statusCode = fasthttp_StatusOK) ∧
    (resp.statusCode ≠ fasthttp_StatusOK →
      getAPIResponse cfg role path (.ok resp) =
        .error (.unexpectedStatusCode (requestURLOf cfg role path)
          resp.statusCode fasthttp_StatusOK data)) ∧
    (∀ d : Bytes, getAPIResponse cfg role path (.ok resp) = .ok d → d = data) := by
  refine ⟨?_, ?_, ?_⟩
  · constructor
    · intro h
      by_contra hne
      simp [getAPIResponse, hdec, hne] at h
    · intro h
      simp [getAPIResponse, hdec, h]
  · intro h
    simp [getAPIResponse, hdec, h]
  · intro d h
    by_cases hs : resp.statusCode = fasthttp_StatusOK
    · simp [getAPIResponse, hdec, hs] at h
      exact h.symm
    · simp [getAPIResponse, hdec, hs] at h

/-- C4 witness: a decodable response with status 500 produces the status
error with URL, code and body, and the same response with status 200
succeeds with exactly the body. -/
theorem C4_status_check_witness :
    getAPIResponse cfgPlain "pod" "/api/v1/pods"
      (.ok { statusCode := 500, contentEncoding := "", body := [0x41] }) =
      .error (.unexpectedStatusCode "https://api.example.com/api/v1/pods" 500 200 [0x41]) ∧
    getAPIResponse cfgPlain "pod" "/api/v1/pods"
      (.ok { statusCode := 200, contentEncoding := "", body := [0x41] }) = .ok [0x41] := by
  constructor
  · have h := (C4_status_check cfgPlain "pod" "/api/v1/pods"
      { statusCode := 500, contentEncoding := "", body := [0x41] } [0x41] (by decide)).2.1
      (by decide)
    rw [h]; decide
  · exact (C4_status_check cfgPlain "pod" "/api/v1/pods"
      { statusCode := 200, contentEncoding := "", body := [0x41] } [0x41] (by decide)).1.mpr rfl

/-! ## Theorems about client construction -/

/-- C7: every successfully constructed client is bound to exactly the
resolved host:port and carries the fixed limits — a one-minute read
timeout, a ten-second write timeout, a 300 MiB response body cap, and
dual-stack dialing exactly when IPv6 is enabled. -/
theorem C7_client_limits (env : Env) (apiServer : String) (ac : Option Config)
    (hcv : hcValue) (h : newHostClient env apiServer ac = .ok hcv) :
    hcv.hc.Addr = hcv.hostPort ∧
    hcv.hc.ReadTimeout = time_Minute ∧
    hcv.hc.WriteTimeout = 10 * time_Second ∧
    hcv.hc.MaxResponseBodySize = 300 * 1024 * 1024 ∧
    hcv.hc.DialDualStack = env.tcp6Enabled := by
  unfold newHostClient at h
  split at h
  · exact absurd h (by simp)
  · have hv := Except.ok.inj h
    subst hv
    exact ⟨rfl, rfl, rfl, rfl, rfl⟩

/-- An environment with no Kubernetes env vars or files and IPv6
enabled, used to instantiate construction statements. -/
def envNoK8s : Env where
  getenv := fun _ => ""
  readFile := fun _ => none
  tcp6Enabled := true

/-- C7 witness: the client built for `https://api.example.com` has its
address equal to the resolved host:port, the fixed timeouts and body
cap, and dual-stack dialing per the environment's IPv6 support. -/
theorem C7_client_limits_witness :
    newHostClient envNoK8s "https://api.example.com" none =
      .ok (buildHostClient envNoK8s "https://api.example.com" none) ∧
    ((buildHostClient envNoK8s "https://api.example.com" none).hc.Addr =
        (buildHostClient envNoK8s "https://api.example.com" none).hostPort ∧
      (buildHostClient envNoK8s "https://api.example.com" none).hc.ReadTimeout = time_Minute ∧
      (buildHostClient envNoK8s "https://api.example.com" none).hc.WriteTimeout =
        10 * time_Second ∧
      (buildHostClient envNoK8s "https://api.example.com" none).hc.MaxResponseBodySize =
        300 * 1024 * 1024 ∧
      (buildHostClient envNoK8s "https://api.example.com" none).hc.DialDualStack =
        envNoK8s.tcp6Enabled) :=
  ⟨rfl, C7_client_limits envNoK8s "https://api.example.com" none _ rfl⟩

/-- C6: when the resolved server URL's host carries no explicit port
(and no `%`, which `net.JoinHostPort` would bracket), the client's
host:port is the host with the default port appended — 443 under the
https scheme, 80 otherwise. -/
theorem C6_default_port (env : Env) (apiServer : String) (ac : Option Config)
    (hcv : hcValue) (hne : apiServer.length ≠ 0)
    (h : newHostClient env apiServer ac = .ok hcv)
    (hnc : (parseURI apiServer).host.data.contains ':' = false)
    (hnp : (parseURI apiServer).host.data.contains '%' = false) :
    hcv.hostPort = (parseURI apiServer).host ++ ":" ++
      (if (parseURI apiServer).scheme = "https" then "443" else "80") := by
  unfold newHostClient resolveAPIServer at h
  rw [if_neg hne] at h
  have hv := Except.ok.inj h
  subst hv
  unfold buildHostClient joinHostPort
  simp only [hnc, hnp, Bool.false_eq_true, not_false_eq_true, if_true, or_self, if_false]

/-- C6 witness: `http://api.example.com` resolves to
`api.example.com:80` and `https://api.example.com` to
`api.example.com:443`. -/
theorem C6_default_port_witness :
    (buildHostClient envNoK8s "http://api.example.com" none).hostPort =
      "api.example.com:80" ∧
    (buildHostClient envNoK8s "https://api.example.com" none).hostPort =
      "api.example.com:443" := by
  constructor
  · have h := C6_default_port envNoK8s "http://api.example.com" none _ (by decide) rfl
      (by decide) (by decide)
    rw [h]; decide
  · have h := C6_default_port envNoK8s "https://api.example.com" none _ (by decide) rfl
      (by decide) (by decide)
    rw [h]; decide

/-- C3: with an empty explicit server URL, `newHostClient` reads
`KUBERNETES_SERVICE_HOST` and `KUBERNETES_SERVICE_PORT`; a missing
variable fails with an error naming it; otherwise the resolved server
URL is exactly `https://` + host:port, the authorization token comes
from the well-known bearer-token path and the TLS trust material from
the well-known CA path. -/
theorem C3_bootstrap_resolution (env : Env) (ac : Option Config) :
    (env.getenv "KUBERNETES_SERVICE_HOST" = "" →
      newHostClient env "" ac = .error (.envVarMissing "KUBERNETES_SERVICE_HOST")) ∧
    (env.getenv "KUBERNETES_SERVICE_HOST" ≠ "" →
      env.getenv "KUBERNETES_SERVICE_PORT" = "" →
      newHostClient env "" ac = .error (.envVarMissing "KUBERNETES_SERVICE_PORT")) ∧
    (∀ token ca : String,
      env.getenv "KUBERNETES_SERVICE_HOST" ≠ "" →
      env.getenv "KUBERNETES_SERVICE_PORT" ≠ "" →
      env.readFile serviceAccountTokenPath = some token →
      env.readFile serviceAccountCAPath = some ca →
      ∃ hcv : hcValue, newHostClient env "" ac = .ok hcv ∧
        hcv.apiServer = "https://" ++
          joinHostPort (env.getenv "KUBERNETES_SERVICE_HOST")
            (env.getenv "KUBERNETES_SERVICE_PORT") ∧
        hcv.ac = some { Authorization := "Bearer " ++ token,
                        TLSRootCAData := some ca,
                        TLSServerName := "",
                        TLSInsecureSkipVerify := false }) := by
  refine ⟨?_, ?_, ?_⟩
  · intro hhost
    simp [newHostClient, resolveAPIServer, hhost]
  · intro hhost hport
    have hh : ¬ (env.getenv "KUBERNETES_SERVICE_HOST").length = 0 :=
      fun h0 => hhost ((length_eq_zero_iff _).mp h0)
    simp [newHostClient, resolveAPIServer, hh, hport]
  · intro token ca hhost hport htoken hca
    have hh : ¬ (env.getenv "KUBERNETES_SERVICE_HOST").length = 0 :=
      fun h0 => hhost ((length_eq_zero_iff _).mp h0)
    have hp : ¬ (env.getenv "KUBERNETES_SERVICE_PORT").length = 0 :=
      fun h0 => hport ((length_eq_zero_iff _).mp h0)
    refine ⟨buildHostClient env
        ("https://" ++ joinHostPort (env.getenv "KUBERNETES_SERVICE_HOST")
          (env.getenv "KUBERNETES_SERVICE_PORT"))
        (some { Authorization := "Bearer " ++ token, TLSRootCAData := some ca,
                TLSServerName := "", TLSInsecureSkipVerify := false }),
      ?_, rfl, rfl⟩
    simp only [serviceAccountTokenPath] at htoken
    simp only [serviceAccountCAPath] at hca
    simp [newHostClient, resolveAPIServer, hh, hp, NewConfig,
      serviceAccountTokenPath, serviceAccountCAPath, htoken, hca]

/-- An in-cluster bootstrap environment: both Kubernetes env vars set
and both well-known service-account files readable. -/
def envInCluster : Env where
  getenv := fun k =>
    if k = "KUBERNETES_SERVICE_HOST" then "10.0.0.1"
    else if k = "KUBERNETES_SERVICE_PORT" then "6443" else ""
  readFile := fun p =>
    if p = serviceAccountTokenPath then some "sa-token"
    else if p = serviceAccountCAPath then some "sa-ca-cert" else none
  tcp6Enabled := false

/-- An environment with only `KUBERNETES_SERVICE_HOST` set. -/
def envPortMissing : Env where
  getenv := fun k => if k = "KUBERNETES_SERVICE_HOST" then "10.0.0.1" else ""
  readFile := fun _ => none
  tcp6Enabled := false

/-- C3 witness: a missing host or port variable fails naming it, and
with host `10.0.0.1`, port `6443` and readable service-account files the
resolved URL is `https://10.0.0.1:6443` with the token and CA loaded
from the well-known paths. -/
theorem C3_bootstrap_resolution_witness :
    newHostClient envNoK8s "" none = .error (.envVarMissing "KUBERNETES_SERVICE_HOST") ∧
    newHostClient envPortMissing "" none =
      .error (.envVarMissing "KUBERNETES_SERVICE_PORT") ∧
    (newHostClient envInCluster "" none).map hcValue.apiServer =
      .ok "https://10.0.0.1:6443" ∧
    (newHostClient envInCluster "" none).map hcValue.ac =
      .ok (some { Authorization := "Bearer sa-token",
                  TLSRootCAData := some "sa-ca-cert",
                  TLSServerName := "",
                  TLSInsecureSkipVerify := false }) := by
  refine ⟨(C3_bootstrap_resolution envNoK8s none).1 rfl,
    (C3_bootstrap_resolution envPortMissing none).2.1 (by decide) rfl, ?_, ?_⟩
  all_goals
    obtain ⟨hcv, h1, h2, h3⟩ := (C3_bootstrap_resolution envInCluster none).2.2
      "sa-token" "sa-ca-cert" (by decide) (by decide) rfl rfl
  · rw [h1, Except.map, h2]; decide
  · rw [h1, Except.map, h3]; decide

/-- With an empty explicit server URL the in-pod bootstrap branch runs
and the passed-in auth config is never consulted. -/
lemma newHostClient_empty_ignores_ac (env : Env) (a b : Option Config) :
    newHostClient env "" a = newHostClient env "" b := rfl

/-- C10: in in-environment bootstrap mode (empty explicit server URL)
the explicit auth material is parsed but then discarded: two configs
that differ only in their auth fields resolve to identical contexts, and
any resolved context carries exactly the service-account auth material
produced by the bootstrap branch. -/
theorem C10_bootstrap_discards_explicit_auth (env : Env) (baseDir : String)
    (sdc1 sdc2 : SDConfig) (ac1 ac2 : Config)
    (h1 : sdc1.APIServer = "") (h2 : sdc2.APIServer = "")
    (hns : sdc1.Namespaces = sdc2.Namespaces) (hsel : sdc1.Selectors = sdc2.Selectors)
    (hp1 : NewConfig env baseDir sdc1.BasicAuth sdc1.BearerToken sdc1.BearerTokenFile
      sdc1.TLSConfig = .ok ac1)
    (hp2 : NewConfig env baseDir sdc2.BasicAuth sdc2.BearerToken sdc2.BearerTokenFile
      sdc2.TLSConfig = .ok ac2) :
    newAPIConfig env sdc1 baseDir = newAPIConfig env sdc2 baseDir ∧
    (∀ cfg : apiConfig, newAPIConfig env sdc1 baseDir = .ok cfg →
      ∃ hcv : hcValue, newHostClient env "" none = .ok hcv ∧ cfg.authConfig = hcv.ac) := by
  constructor
  · simp only [newAPIConfig, hp1, hp2, h1, h2]
    rw [newHostClient_empty_ignores_ac env (some ac1) (some ac2)]
    cases newHostClient env "" (some ac2) with
    | error e => rfl
    | ok hcv => simp [hns, hsel]
  · intro cfg hok
    simp only [newAPIConfig, hp1, h1] at hok
    rw [newHostClient_empty_ignores_ac env (some ac1) none] at hok
    cases hhc : newHostClient env "" none with
    | error e => rw [hhc] at hok; exact absurd hok (by simp)
    | ok hcv =>
      rw [hhc] at hok
      have hv := Except.ok.inj hok
      subst hv
      exact ⟨hcv, rfl, rfl⟩

/-- C10 witness: in the in-cluster environment, a config carrying
explicit basic auth, a bearer token and TLS settings resolves to the
same context as a config with no auth material at all, and the resolved
auth is the service-account token/CA pair. -/
theorem C10_bootstrap_discards_explicit_auth_witness :
    newAPIConfig envInCluster
      { APIServer := "", BasicAuth := some { Username := "u", Password := "p" },
        BearerToken := "explicit-token" } "/" =
      newAPIConfig envInCluster {} "/" ∧
    (newAPIConfig envInCluster
        { APIServer := "", BasicAuth := some { Username := "u", Password := "p" },
          BearerToken := "explicit-token" } "/").map apiConfig.authConfig =
      (newHostClient envInCluster "" none).map hcValue.ac := by
  have h := C10_bootstrap_discards_explicit_auth envInCluster "/"
    { APIServer := "", BasicAuth := some { Username := "u", Password := "p" },
      BearerToken := "explicit-token" } {}
    { Authorization := "Basic u:p" } { Authorization := "" }
    rfl rfl rfl rfl rfl rfl
  refine ⟨h.1, ?_⟩
  cases hok : newAPIConfig envInCluster
      { APIServer := "", BasicAuth := some { Username := "u", Password := "p" },
        BearerToken := "explicit-token" } "/" with
  | error e =>
    have hiso : (newAPIConfig envInCluster
        { APIServer := "", BasicAuth := some { Username := "u", Password := "p" },
          BearerToken := "explicit-token" } "/").isOk = true := by decide
    rw [hok] at hiso
    simp [Except.isOk, Except.toBool] at hiso
  | ok cfg =>
    obtain ⟨hcv, hhc, hac⟩ := h.2 cfg hok
    rw [hhc, Except.map, Except.map, hac]

/-! ## Theorems about the configuration-fingerprint cache -/

/-- Once the cache holds a context for an identity, every further call
presenting that identity returns the stored context and never runs the
construction pipeline. -/
lemma runGetAPIConfig_hit (env : Env) (baseDir : String) (m : ConfigMap) (sdc : SDConfig)
    (cfg : apiConfig) (calls : List SDConfig)
    (hm : m.lookup sdc = some cfg) (hcalls : ∀ c ∈ calls, c = sdc) :
    runGetAPIConfig env baseDir m calls = (m, calls.map (fun _ => Except.ok cfg), 0) := by
  induction calls with
  | nil => rfl
  | cons c rest ih =>
    have hc : c = sdc := hcalls c (List.mem_cons_self c rest)
    subst hc
    have hstep : getAPIConfig env m c baseDir = (m, .ok cfg, false) := by
      simp [getAPIConfig, ConfigMap.Get, hm]
    simp [runGetAPIConfig, hstep,
      ih (fun d hd => hcalls d (List.mem_cons_of_mem c hd))]

/-- C1: across any nonempty sequence of calls all presenting
configurations field-wise equal to a given one (value equality is the
cache key), every call returns the same resolved context and the
construction pipeline runs exactly once. -/
theorem C1_value_identity_dedup (env : Env) (baseDir : String) (sdc : SDConfig)
    (cfg : apiConfig) (calls : List SDConfig)
    (hok : newAPIConfig env sdc baseDir = .ok cfg)
    (hcalls : ∀ c ∈ calls, c = sdc) (hne : calls ≠ []) :
    (runGetAPIConfig env baseDir ConfigMap.new calls).2.1 =
      calls.map (fun _ => Except.ok cfg) ∧
    (runGetAPIConfig env baseDir ConfigMap.new calls).2.2 = 1 := by
  cases calls with
  | nil => exact absurd rfl hne
  | cons c rest =>
    have hc : c = sdc := hcalls c (List.mem_cons_self c rest)
    subst hc
    have hstep : getAPIConfig env ConfigMap.new c baseDir =
        ({ entries := [(c, cfg)] }, .ok cfg, true) := by
      simp [getAPIConfig, ConfigMap.Get, ConfigMap.lookup, ConfigMap.new, List.find?, hok]
    have hrest := runGetAPIConfig_hit env baseDir { entries := [(c, cfg)] } c cfg rest
      (by simp [ConfigMap.lookup, List.find?])
      (fun d hd => hcalls d (List.mem_cons_of_mem c hd))
    simp [runGetAPIConfig, hstep, hrest]

/-- C1 witness: three interleaved calls presenting two field-wise equal
configurations (built independently) all return the context constructed
by the single pipeline run. -/
theorem C1_value_identity_dedup_witness :
    (runGetAPIConfig envInCluster "/" ConfigMap.new
        [{ APIServer := "" }, { APIServer := "" }, { APIServer := "" }]).2.2 = 1 ∧
    (runGetAPIConfig envInCluster "/" ConfigMap.new
        [{ APIServer := "" }, { APIServer := "" }, { APIServer := "" }]).2.1 =
      ([{ APIServer := "" }, { APIServer := "" }, { APIServer := "" }] : List SDConfig).map
        (fun _ => Except.ok (((newAPIConfig envInCluster { APIServer := "" } "/").toOption).getD cfgPlain)) := by
  have h := C1_value_identity_dedup envInCluster "/" { APIServer := "" }
    (((newAPIConfig envInCluster { APIServer := "" } "/").toOption).getD cfgPlain)
    [{ APIServer := "" }, { APIServer := "" }, { APIServer := "" }]
    (by decide) (by intro c hc; simp at hc; simp [hc]) (by decide)
  exact ⟨h.2, h.1⟩

/-- C2: a construction failure is returned but not cached — the cache
state is unchanged and the pipeline ran — so a later call with the same
identity, made once the missing precondition is satisfied, re-runs
construction and succeeds instead of returning the stale error. -/
theorem C2_failure_not_cached (env1 env2 : Env) (baseDir : String) (m : ConfigMap)
    (sdc : SDConfig) (e : DiscoveryError) (cfg : apiConfig)
    (hmiss : m.lookup sdc = none)
    (hfail : newAPIConfig env1 sdc baseDir = .error e)
    (hok : newAPIConfig env2 sdc baseDir = .ok cfg) :
    getAPIConfig env1 m sdc baseDir = (m, .error e, true) ∧
    getAPIConfig env2 (getAPIConfig env1 m sdc baseDir).1 sdc baseDir =
      ({ entries := m.entries ++ [(sdc, cfg)] }, .ok cfg, true) := by
  have h1 : getAPIConfig env1 m sdc baseDir = (m, .error e, true) := by
    simp [getAPIConfig, ConfigMap.Get, hmiss, hfail]
  refine ⟨h1, ?_⟩
  rw [h1]
  simp [getAPIConfig, ConfigMap.Get, hmiss, hok]

/-- C2 witness: with no explicit server and the Kubernetes env vars
absent, resolution fails with the environment error naming the missing
host variable and caches nothing; re-resolving the same configuration in
the in-cluster environment succeeds. -/
theorem C2_failure_not_cached_witness :
    getAPIConfig envNoK8s ConfigMap.new { APIServer := "" } "/" =
      (ConfigMap.new,
        .error (.cannotCreateHTTPClient ""
          (.envVarMissing "KUBERNETES_SERVICE_HOST")), true) ∧
    (getAPIConfig envInCluster
        (getAPIConfig envNoK8s ConfigMap.new { APIServer := "" } "/").1
        { APIServer := "" } "/").2.1 =
      .ok (((newAPIConfig envInCluster { APIServer := "" } "/").toOption).getD cfgPlain) := by
  have h := C2_failure_not_cached envNoK8s envInCluster "/" ConfigMap.new
    { APIServer := "" }
    (.cannotCreateHTTPClient "" (.envVarMissing "KUBERNETES_SERVICE_HOST"))
    (((newAPIConfig envInCluster { APIServer := "" } "/").toOption).getD cfgPlain)
    rfl (by decide) (by decide)
  exact ⟨h.1, by rw [h.2]⟩

end Kubernetes
